import Mathlib

/-!
Verification of the transcription-pipeline core of noScribe (src/noScribe.py)
against its design specification.

The embedding below translates the relevant Python functions into Lean:
millisecond timestamps become integers, Python float ratios become exact
rationals, the diarization iterator becomes a list of intervals, and the
stateful transcription loop becomes explicit state passing.
-/

/-- Speaker interval produced by the diarization engine: start and end time in
milliseconds plus the raw engine label (for example "SPEAKER_01").  The
collection handed to find_speaker is ordered ascending by start. -/
structure DiaSeg where
  start : Int
  stop : Int
  label : String
deriving DecidableEq, Repr

/-- Embedding of overlap_len from noScribe.py.  Inputs are the speaker segment
[ss_start, ss_end] and the transcript segment [ts_start, ts_end], all in
milliseconds.  Returns -1 when the transcript segment ends before the speaker
segment starts (the early-exit sentinel), 0 when the transcript segment starts
after the speaker segment ends (no overlap, keep scanning), -1 again when the
transcript segment has zero length, and otherwise the inclusive-endpoint
overlap length divided by the transcript segment length as an exact rational. -/
def overlap_len (ss_start ss_end ts_start ts_end : Int) : Rat :=
  if ts_end < ss_start then -1
  else if ts_start > ss_end then 0
  else
    let overlap_start := if ts_start > ss_start then ts_start else ss_start
    let overlap_end := if ts_end > ss_end then ss_end else ts_end
    let ol_len := overlap_end - overlap_start + 1
    let ts_len := ts_end - ts_start
    if ts_len = 0 then -1
    else (ol_len : Rat) / (ts_len : Rat)

/-- The 80 percent overlap threshold used by find_speaker. -/
def overlap_threshold : Rat := 0.8

/-- Label shortening used by find_speaker: "SPEAKER_01" becomes "S01". -/
def shorten_label (label : String) : String :=
  "S" ++ label.drop 8

/-- Loop state of find_speaker: best label so far, best overlap ratio so far,
length in milliseconds of the best interval so far, and the parallel flag. -/
structure FSState where
  spkr : String
  overlap_found : Rat
  segment_len : Int
  is_parallel : Bool
deriving DecidableEq, Repr

/-- The scanning loop of find_speaker over the ordered diarization sequence,
with the loop-carried variables made explicit.  A sentinel ratio of -1 breaks
out of the loop (returning the state reached so far); once the best ratio has
reached the threshold, only strictly shorter intervals that also reach the
threshold supersede it, setting the parallel flag. -/
def fs_loop (ts_start ts_end : Int) : List DiaSeg → FSState → FSState
  | [], st => st
  | seg :: rest, st =>
    let t := overlap_len seg.start seg.stop ts_start ts_end
    if t = -1 then st
    else if st.overlap_found ≥ overlap_threshold then
      if t ≥ overlap_threshold ∧ seg.stop - seg.start < st.segment_len then
        fs_loop ts_start ts_end rest
          { spkr := shorten_label seg.label, overlap_found := t,
            segment_len := seg.stop - seg.start, is_parallel := true }
      else fs_loop ts_start ts_end rest st
    else if t > st.overlap_found then
      fs_loop ts_start ts_end rest
        { spkr := shorten_label seg.label, overlap_found := t,
          segment_len := seg.stop - seg.start, is_parallel := st.is_parallel }
    else fs_loop ts_start ts_end rest st

/-- Initial state of the find_speaker loop. -/
def fs_init : FSState :=
  { spkr := "", overlap_found := 0, segment_len := 0, is_parallel := false }

/-- Embedding of find_speaker from noScribe.py.  detect_parallel is the
self.parallel configuration flag; the result is the (shortened) speaker label,
prefixed with "//" when parallel speech was detected and the run is configured
to surface it. -/
def find_speaker (detect_parallel : Bool) (diarization : List DiaSeg)
    (transcript_start transcript_end : Int) : String :=
  let st := fs_loop transcript_start transcript_end diarization fs_init
  if detect_parallel ∧ st.is_parallel then "//" ++ st.spkr else st.spkr

/-- Embedding of set_progress from noScribe.py, returning the fraction written
to the progress bar.  speaker_detection is the self.speaker_detection
configuration string, compared against "auto" exactly as in the source. -/
def set_progress (speaker_detection : String) (step : Nat) (value : Rat) : Rat :=
  if step = 1 then value * 0.05 / 100
  else if step = 2 then
    let progr : Rat := 0.05
    progr + value * 0.45 / 100
  else if step = 3 then
    if speaker_detection = "auto" then
      let progr : Rat := 0.05 + 0.45
      progr + value * 0.5 / 100
    else
      let progr : Rat := 0.05
      progr + value * 0.95 / 100
  else 0

/-- Overall progress percentage: the progress-bar fraction scaled to 0..100. -/
def overall (speaker_detection : String) (step : Nat) (value : Rat) : Rat :=
  100 * set_progress speaker_detection step value

/-- Timed text segment emitted by the speech-recognition model: start and end
in milliseconds plus the segment text. -/
structure WSeg where
  start : Int
  stop : Int
  text : String
deriving DecidableEq, Repr

/-- One text run of the output document: the hyperlink target times (in
original, unclipped audio milliseconds) and the rendered text. -/
structure TextRun where
  href_start : Int
  href_stop : Int
  text : String
deriving DecidableEq, Repr

/-- A paragraph of the output document, its runs kept most-recent first. -/
abbrev Para := List TextRun

/-- The document body: its paragraphs kept most-recent first.  The code in
button_start_event creates one empty paragraph before the segment loop starts,
so the initial body is [[]]. -/
abbrev DocBody := List Para

/-- Append a run to the current (most recent) paragraph of the body. -/
def append_run (d : DocBody) (r : TextRun) : DocBody :=
  match d with
  | [] => [[r]]
  | p :: ps => (r :: p) :: ps

/-- Run configuration consumed by the transcription segment loop, mirroring
the self.* fields read there: the speaker_detection selector (diarization ran
exactly when it equals "auto"), the parallel-speech display flag, the autosave
flag, the configured start offset in milliseconds, and the diarization
result. -/
structure TCfg where
  speaker_detection : String
  parallel : Bool
  auto_save : Bool
  start_offset : Int
  diarization : List DiaSeg
deriving DecidableEq, Repr

/-- Mutable state of the transcription segment loop: the current speaker
label, the document body, and the trace of document snapshots written to
durable storage by save_doc calls (each successful save appends one
snapshot). -/
structure TState where
  speaker : String
  doc : DocBody
  writes : List DocBody
deriving DecidableEq, Repr

/-- Initial loop state: empty speaker label, one empty paragraph, no writes
yet. -/
def t_init : TState := { speaker := "", doc := [[]], writes := [] }

/-- Environment observations for one loop iteration: the emitted segment, the
value of the cancellation flag polled at the top of the iteration, and whether
more than 20 seconds have passed since the last save when the autosave timer
check runs. -/
structure TIn where
  seg : WSeg
  cancel : Bool
  timer_expired : Bool
deriving DecidableEq, Repr

/-- One non-cancelled iteration of the transcription segment loop from
button_start_event: when diarization ran, resolve the speaker with
find_speaker and apply the paragraph-break / parallel-marker logic; append the
run with its playback bookmark shifted by the configured start offset; then
autosave when enabled and the 20-second timer expired.  Saves are modelled as
successful snapshot appends (the rescue logic of save_doc is embedded
separately below). -/
def t_step (cfg : TCfg) (st : TState) (i : TIn) : TState :=
  let line := i.seg.text
  let resolved :=
    if cfg.speaker_detection = "auto" then
      let spkr := find_speaker cfg.parallel cfg.diarization i.seg.start i.seg.stop
      if st.speaker ≠ spkr ∧ spkr ≠ "" then
        if spkr.take 2 = "//" then (spkr, st.doc, " " ++ spkr ++ ":" ++ line)
        else if st.speaker.take 2 = "//" then (spkr, st.doc, "//" ++ line)
        else (spkr, ([] : Para) :: st.doc, spkr ++ ":" ++ line)
      else (st.speaker, st.doc, line)
    else (st.speaker, st.doc, line)
  let r : TextRun :=
    { href_start := cfg.start_offset + i.seg.start,
      href_stop := cfg.start_offset + i.seg.stop,
      text := resolved.2.2 }
  let doc := append_run resolved.2.1 r
  let writes := if cfg.auto_save ∧ i.timer_expired then st.writes ++ [doc] else st.writes
  { speaker := resolved.1, doc := doc, writes := writes }

/-- Outcome of the transcription segment loop: either cancelled by the user
(the err_user_cancelation exception) with the state reached at that point, or
completed normally. -/
inductive TOutcome where
  | cancelled (st : TState)
  | completed (st : TState)
deriving DecidableEq, Repr

/-- The transcription segment loop: each iteration first polls the
cancellation flag; when it is set, the current document is saved once more (if
autosave is enabled) and the loop aborts with the user-cancellation error;
otherwise the segment is processed by t_step. -/
def t_loop (cfg : TCfg) : List TIn → TState → TOutcome
  | [], st => .completed st
  | i :: rest, st =>
    if i.cancel then
      if cfg.auto_save then .cancelled { st with writes := st.writes ++ [st.doc] }
      else .cancelled st
    else t_loop cfg rest (t_step cfg st i)

/-- Processing a list of iterations with no cancellation observed. -/
def t_run (cfg : TCfg) (l : List TIn) (st : TState) : TState :=
  l.foldl (t_step cfg) st

/-- File path decomposed the way the pathlib calls in save_doc use it: parent
directory, stem, and extension (the rendered path is
parent ++ "/" ++ stem ++ ext). -/
structure FPath where
  parent : String
  stem : String
  ext : String
deriving DecidableEq, Repr

/-- The alternate filename used by the rescue save: parent/stem_1.html, the
fixed "_1" suffix appended to the stem. -/
def alt_file (p : FPath) : FPath :=
  { parent := p.parent, stem := p.stem ++ "_1", ext := ".html" }

/-- Failure modes of save_doc: the alternate name already exists (the
rescue_saving_failed exception), or the write to the alternate name failed as
well (the underlying I/O error propagates). -/
inductive SaveErr where
  | alt_exists
  | alt_write_failed
deriving DecidableEq, Repr

/-- Embedding of save_doc from button_start_event.  The file system is given
by two predicates: writable (whether an attempted write to a path succeeds)
and present (os.path.exists).  Returns the list of paths to which a write was
attempted, in order, together with either the path that now holds the
document and a flag marking that the rescue path was used (surfaced as a
warning, not a failure), or the error raised. -/
def save_doc (writable present : FPath → Bool) (p : FPath) :
    List FPath × Except SaveErr (FPath × Bool) :=
  if writable p then ([p], .ok (p, false))
  else
    let alt := alt_file p
    if present alt then ([p], .error .alt_exists)
    else if writable alt then ([p, alt], .ok (alt, true))
    else ([p, alt], .error .alt_write_failed)

example : overlap_len 1000 2000 1500 2500 = 501 / 1000 := by rfl
example : find_speaker true
    [⟨0, 100, "SPEAKER_00"⟩, ⟨0, 1000, "SPEAKER_01"⟩] 0 100 = "S00" := by
  norm_num [find_speaker, fs_loop, fs_init, overlap_len, overlap_threshold, shorten_label]
  decide

/-- Claim C2: for speaker interval [1000,2000] and text segment [1500,2500],
the overlap ratio is computed from the clipped range [1500,2000] with the
inclusive-endpoint length formula overlap_end - overlap_start + 1, giving
exactly (2000 - 1500 + 1) / (2500 - 1500) = 501/1000. -/
theorem claim2_overlap_boundary_pin :
    overlap_len 1000 2000 1500 2500 =
      ((2000 - 1500 + 1 : Int) : Rat) / ((2500 - 1500 : Int) : Rat) ∧
    overlap_len 1000 2000 1500 2500 = 501 / 1000 := by
  constructor <;> norm_num [overlap_len]

/-- Claim C5: the progress aggregation maps (stage, local percent, diarization
enabled) statelessly to an overall percentage: Convert gives local * 0.05 and
Diarize gives 5 + local * 0.45 for every speaker_detection value; Transcribe
gives 50 + local * 0.50 when diarization is enabled (speaker_detection =
"auto") and 5 + local * 0.95 otherwise. -/
theorem claim5_progress_mapping (sd : String) (v : Rat) :
    overall sd 1 v = v * 0.05 ∧
    overall sd 2 v = 5 + v * 0.45 ∧
    overall "auto" 3 v = 50 + v * 0.5 ∧
    (sd ≠ "auto" → overall sd 3 v = 5 + v * 0.95) := by
  refine ⟨?_, ?_, ?_, fun hsd => ?_⟩ <;>
    simp [overall, set_progress, *] <;> ring

/-- Witness for claim C5 at local percent 7, covering both the enabled
("auto") and disabled ("none") configurations of every stage row. -/
theorem claim5_progress_mapping_witness :
    (overall "auto" 1 7 = 7 * 0.05 ∧ overall "auto" 2 7 = 5 + 7 * 0.45) ∧
    (overall "none" 1 7 = 7 * 0.05 ∧
     overall "none" 2 7 = 5 + 7 * 0.45 ∧
     overall "auto" 3 7 = 50 + 7 * 0.5 ∧
     overall "none" 3 7 = 5 + 7 * 0.95) :=
  ⟨⟨(claim5_progress_mapping "auto" 7).1, (claim5_progress_mapping "auto" 7).2.1⟩,
   (claim5_progress_mapping "none" 7).1,
   (claim5_progress_mapping "none" 7).2.1,
   (claim5_progress_mapping "none" 7).2.2.1,
   (claim5_progress_mapping "none" 7).2.2.2 (by decide)⟩

/-- Claim C6 counterexample: the fourth pinned value of the claim fails on the
code.  With diarization disabled, Transcribe at local percent 50 yields
100 * (0.05 + 50 * 0.95 / 100) = 52.5, not the claimed 52.25. -/
theorem claim6_pin_counterexample :
    overall "none" 3 50 ≠ 52.25 ∧ overall "none" 3 50 = 52.5 := by
  have h : ¬ (("none" : String) = "auto") := by decide
  constructor <;> norm_num [overall, set_progress, h]

/-- Claim C6 amended: the progress mapping satisfies the four pinned values
with the last one corrected from 52.25 to 52.5: overall(Convert, 50, off) =
2.5, overall(Diarize, 100, on) = 50, overall(Transcribe, 50, on) = 75, and
overall(Transcribe, 50, off) = 52.5. -/
theorem claim6_pins_amended :
    overall "none" 1 50 = 2.5 ∧
    overall "auto" 2 100 = 50 ∧
    overall "auto" 3 50 = 75 ∧
    overall "none" 3 50 = 52.5 := by
  have h : ¬ (("none" : String) = "auto") := by decide
  refine ⟨?_, ?_, ?_, ?_⟩ <;> norm_num [overall, set_progress, h]

lemma fs_loop_break (ts te : Int) (seg : DiaSeg) (rest : List DiaSeg)
    (st : FSState) (h : overlap_len seg.start seg.stop ts te = -1) :
    fs_loop ts te (seg :: rest) st = st := by
  simp [fs_loop, h]

lemma fs_loop_zero (ts te : Int) (seg : DiaSeg) (rest : List DiaSeg)
    (st : FSState) (h : overlap_len seg.start seg.stop ts te = 0)
    (hof : 0 ≤ st.overlap_found) :
    fs_loop ts te (seg :: rest) st = fs_loop ts te rest st := by
  have h1 : ¬ ((0 : Rat) = -1) := by norm_num
  have h2 : ¬ (overlap_threshold ≤ (0 : Rat)) := by norm_num [overlap_threshold]
  have h3 : ¬ (st.overlap_found < (0 : Rat)) := not_lt.mpr hof
  simp [fs_loop, h, h1, h2, h3]

lemma overlap_len_zero_dur_cases (a b ts : Int) :
    overlap_len a b ts ts = -1 ∨ overlap_len a b ts ts = 0 := by
  simp only [overlap_len, sub_self]
  split_ifs <;> simp_all

lemma fs_loop_zero_dur (ts : Int) (l : List DiaSeg) :
    fs_loop ts ts l fs_init = fs_init := by
  induction l with
  | nil => rfl
  | cons seg rest ih =>
    rcases overlap_len_zero_dur_cases seg.start seg.stop ts with hb | h0
    · exact fs_loop_break ts ts seg rest fs_init hb
    · rw [fs_loop_zero ts ts seg rest fs_init h0 (by norm_num [fs_init])]
      exact ih

/-- Claim C3: for a transcript segment ending before a speaker interval starts
(te < ss), overlap_len returns the distinguished sentinel -1 and the
find_speaker loop stops scanning at that interval; for a transcript segment
starting after the interval ends (ts > se), overlap_len returns 0 and the loop
continues over the remaining intervals with its state unchanged. -/
theorem claim3_early_exit (seg : DiaSeg) (rest : List DiaSeg) (st : FSState)
    (ts te : Int) (hseg : seg.start ≤ seg.stop) (hts : ts ≤ te)
    (hof : 0 ≤ st.overlap_found) :
    (te < seg.start →
      overlap_len seg.start seg.stop ts te = -1 ∧
      fs_loop ts te (seg :: rest) st = st) ∧
    (seg.stop < ts →
      overlap_len seg.start seg.stop ts te = 0 ∧
      fs_loop ts te (seg :: rest) st = fs_loop ts te rest st) := by
  constructor
  · intro h
    have hol : overlap_len seg.start seg.stop ts te = -1 := by
      simp [overlap_len, h]
    exact ⟨hol, fs_loop_break ts te seg rest st hol⟩
  · intro h
    have hne : ¬ (te < seg.start) := by omega
    have hol : overlap_len seg.start seg.stop ts te = 0 := by
      simp [overlap_len, hne, h]
    exact ⟨hol, fs_loop_zero ts te seg rest st hol hof⟩

/-- Witness for claim C3 at the example of the spec: speaker interval
[5000, 6000] and transcript segment [0, 1000] trigger the early exit. -/
theorem claim3_early_exit_witness :
    ((5000 : Int) ≤ 6000 ∧ (0 : Int) ≤ 1000 ∧ (0 : Rat) ≤ fs_init.overlap_found) ∧
    (((1000 : Int) < 5000 →
        overlap_len 5000 6000 0 1000 = -1 ∧
        fs_loop 0 1000 [⟨5000, 6000, "SPEAKER_00"⟩] fs_init = fs_init) ∧
     ((6000 : Int) < 0 →
        overlap_len 5000 6000 0 1000 = 0 ∧
        fs_loop 0 1000 [⟨5000, 6000, "SPEAKER_00"⟩] fs_init =
          fs_loop 0 1000 [] fs_init)) :=
  ⟨⟨by norm_num, by norm_num, by norm_num [fs_init]⟩,
   claim3_early_exit ⟨5000, 6000, "SPEAKER_00"⟩ [] fs_init 0 1000
     (by norm_num) (by norm_num) (by norm_num [fs_init])⟩

/-- Claim C10: for a zero-duration transcript segment (ts = te), overlap_len
returns the early-exit sentinel -1 on any interval that actually overlaps the
segment, never returns a positive ratio on any interval, and consequently
find_speaker returns the empty label (with no parallel flag) whatever the
diarization sequence is. -/
theorem claim10_zero_duration (ss se ts : Int) (l : List DiaSeg) (b : Bool)
    (h1 : ss ≤ ts) (h2 : ts ≤ se) :
    overlap_len ss se ts ts = -1 ∧
    (∀ a c : Int, overlap_len a c ts ts ≤ 0) ∧
    find_speaker b l ts ts = "" := by
  refine ⟨?_, ?_, ?_⟩
  · have hn1 : ¬ (ts < ss) := not_lt.mpr h1
    have hn2 : ¬ (se < ts) := not_lt.mpr h2
    simp [overlap_len, hn1, hn2]
  · intro a c
    rcases overlap_len_zero_dur_cases a c ts with h | h <;> rw [h] <;> norm_num
  · simp [find_speaker, fs_loop_zero_dur ts l,
      show fs_init.is_parallel = false from rfl, show fs_init.spkr = "" from rfl]

/-- Witness for claim C10 at ss = 1000, se = 2000, ts = te = 1500 over a
one-interval diarization sequence. -/
theorem claim10_zero_duration_witness :
    ((1000 : Int) ≤ 1500 ∧ (1500 : Int) ≤ 2000) ∧
    (overlap_len 1000 2000 1500 1500 = -1 ∧
     (∀ a c : Int, overlap_len a c 1500 1500 ≤ 0) ∧
     find_speaker true [⟨1000, 2000, "SPEAKER_00"⟩] 1500 1500 = "") :=
  ⟨⟨by norm_num, by norm_num⟩,
   claim10_zero_duration 1000 2000 1500 [⟨1000, 2000, "SPEAKER_00"⟩] true
     (by norm_num) (by norm_num)⟩

lemma fs_loop_no_overlap (ts te : Int) (l : List DiaSeg)
    (h : ∀ seg ∈ l, te < seg.start ∨ seg.stop < ts) :
    fs_loop ts te l fs_init = fs_init := by
  induction l with
  | nil => rfl
  | cons seg rest ih =>
    rcases h seg (List.mem_cons_self seg rest) with hb | ha
    · have hol : overlap_len seg.start seg.stop ts te = -1 := by
        simp [overlap_len, hb]
      exact fs_loop_break ts te seg rest fs_init hol
    · by_cases hb2 : te < seg.start
      · have hol : overlap_len seg.start seg.stop ts te = -1 := by
          simp [overlap_len, hb2]
        exact fs_loop_break ts te seg rest fs_init hol
      · have hol : overlap_len seg.start seg.stop ts te = 0 := by
          simp [overlap_len, hb2, ha]
        rw [fs_loop_zero ts te seg rest fs_init hol (by norm_num [fs_init])]
        exact ih (fun s hs => h s (List.mem_cons_of_mem seg hs))

/-- Claim C4: a transcript segment that overlaps no interval of the
diarization sequence gets the empty string as its speaker label. -/
theorem claim4_no_overlap (b : Bool) (l : List DiaSeg) (ts te : Int)
    (h : ∀ seg ∈ l, te < seg.start ∨ seg.stop < ts) :
    find_speaker b l ts te = "" := by
  simp [find_speaker, fs_loop_no_overlap ts te l h,
    show fs_init.is_parallel = false from rfl, show fs_init.spkr = "" from rfl]

/-- Witness for claim C4: transcript segment [0, 1000] against intervals
[5000, 6000] and [7000, 8000]. -/
theorem claim4_no_overlap_witness :
    (∀ seg ∈ [(⟨5000, 6000, "SPEAKER_00"⟩ : DiaSeg), ⟨7000, 8000, "SPEAKER_01"⟩],
        (1000 : Int) < seg.start ∨ seg.stop < 0) ∧
    find_speaker true [⟨5000, 6000, "SPEAKER_00"⟩, ⟨7000, 8000, "SPEAKER_01"⟩]
      0 1000 = "" :=
  ⟨by decide,
   claim4_no_overlap true [⟨5000, 6000, "SPEAKER_00"⟩, ⟨7000, 8000, "SPEAKER_01"⟩]
     0 1000 (by decide)⟩

/-- Claim C1 counterexample: two candidate intervals both reach ratio 0.8 with
the text segment [0, 100] and have different durations (100 and 1000 ms), the
sequence is ordered ascending by start, yet find_speaker (with parallel
detection configured on) returns the shorter interval's label "S00" WITHOUT
the parallel flag: the internal is_parallel stays false, because the flag is
only set when a shorter qualifying interval supersedes an earlier qualifying
one, and here the shorter interval comes first. -/
theorem claim1_counterexample :
    overlap_threshold ≤ overlap_len 0 100 0 100 ∧
    overlap_threshold ≤ overlap_len 0 1000 0 100 ∧
    ((100 : Int) - 0 ≠ 1000 - 0) ∧
    (fs_loop 0 100 [⟨0, 100, "SPEAKER_00"⟩, ⟨0, 1000, "SPEAKER_01"⟩]
        fs_init).is_parallel = false ∧
    find_speaker true [⟨0, 100, "SPEAKER_00"⟩, ⟨0, 1000, "SPEAKER_01"⟩]
        0 100 = "S00" ∧
    "S00" ≠ "//" ++ "S00" := by
  refine ⟨?_, ?_, by decide, ?_, ?_, by decide⟩
  · norm_num [overlap_len, overlap_threshold]
  · norm_num [overlap_len, overlap_threshold]
  · norm_num [fs_loop, fs_init, overlap_len, overlap_threshold]
  · norm_num [find_speaker, fs_loop, fs_init, overlap_len, overlap_threshold,
      shorten_label]
    decide

/-- Claim C1 amended: over an ascending-by-start diarization sequence, when an
interval reaching ratio 0.8 is followed by a strictly shorter interval that
also reaches ratio 0.8, find_speaker returns the shorter interval's shortened
label and flags the result parallel; when only a single interval is found and
its ratio is positive but below 0.8, that interval's label is returned without
the parallel flag. -/
theorem claim1_amended (a b c : DiaSeg) (ts te : Int) (pd : Bool)
    (horder : a.start ≤ b.start)
    (ha : overlap_threshold ≤ overlap_len a.start a.stop ts te)
    (hb : overlap_threshold ≤ overlap_len b.start b.stop ts te)
    (hd : b.stop - b.start < a.stop - a.start)
    (hc1 : 0 < overlap_len c.start c.stop ts te)
    (hc2 : overlap_len c.start c.stop ts te < overlap_threshold) :
    find_speaker true [a, b] ts te = "//" ++ shorten_label b.label ∧
    find_speaker pd [c] ts te = shorten_label c.label := by
  have hna : overlap_len a.start a.stop ts te ≠ -1 := by
    intro h; rw [h] at ha; norm_num [overlap_threshold] at ha
  have hnb : overlap_len b.start b.stop ts te ≠ -1 := by
    intro h; rw [h] at hb; norm_num [overlap_threshold] at hb
  have hnc : overlap_len c.start c.stop ts te ≠ -1 := by
    intro h; rw [h] at hc1; norm_num at hc1
  have hinit : ¬ (overlap_threshold ≤ fs_init.overlap_found) := by
    norm_num [fs_init, overlap_threshold]
  have hpa : fs_init.overlap_found < overlap_len a.start a.stop ts te :=
    lt_of_lt_of_le (by norm_num [fs_init, overlap_threshold]) ha
  have hpc : fs_init.overlap_found < overlap_len c.start c.stop ts te := by
    simpa [fs_init] using hc1
  constructor
  · simp [find_speaker, fs_loop, hna, hnb, hinit, hpa, ha, hb, hd]
  · simp [find_speaker, fs_loop, hnc, hinit, hpc,
      show fs_init.is_parallel = false from rfl]

/-- Witness for the amended claim C1: the longer qualifying interval
[0, 1000] precedes the shorter qualifying interval [0, 100] for the text
segment [0, 100], so "S02" wins flagged parallel; the single interval [0, 50]
has ratio 51/100, below the threshold, and its label is returned unflagged. -/
theorem claim1_amended_witness :
    ((0 : Int) ≤ 0 ∧
     overlap_threshold ≤ overlap_len 0 1000 0 100 ∧
     overlap_threshold ≤ overlap_len 0 100 0 100 ∧
     (100 : Int) - 0 < 1000 - 0 ∧
     0 < overlap_len 0 50 0 100 ∧
     overlap_len 0 50 0 100 < overlap_threshold) ∧
    (find_speaker true [⟨0, 1000, "SPEAKER_01"⟩, ⟨0, 100, "SPEAKER_02"⟩] 0 100 =
        "//" ++ shorten_label "SPEAKER_02" ∧
     find_speaker false [⟨0, 50, "SPEAKER_03"⟩] 0 100 =
        shorten_label "SPEAKER_03") :=
  ⟨⟨by norm_num, by norm_num [overlap_len, overlap_threshold],
    by norm_num [overlap_len, overlap_threshold], by norm_num,
    by norm_num [overlap_len], by norm_num [overlap_len, overlap_threshold]⟩,
   claim1_amended ⟨0, 1000, "SPEAKER_01"⟩ ⟨0, 100, "SPEAKER_02"⟩
     ⟨0, 50, "SPEAKER_03"⟩ 0 100 false (by norm_num)
     (by norm_num [overlap_len, overlap_threshold])
     (by norm_num [overlap_len, overlap_threshold]) (by norm_num)
     (by norm_num [overlap_len]) (by norm_num [overlap_len, overlap_threshold])⟩

/-- Claim C8: when the write to the configured output path fails, exactly one
retry is attempted, against the alternate path obtained by appending "_1" to
the file stem; if that alternate path already exists no further write is
attempted and the fatal rescue error is raised; if the alternate write fails
too, the error propagates with no further retries (at most two write attempts
ever happen); and a save that succeeded only at the alternate path returns
normally, marked as a rescue (a warning), not as a failure. -/
theorem claim8_rescue_save (writable present : FPath → Bool) (p : FPath)
    (hfail : writable p = false) :
    (save_doc writable present p).1 =
      (if present (alt_file p) then [p] else [p, alt_file p]) ∧
    (present (alt_file p) = true →
      (save_doc writable present p).2 = .error .alt_exists) ∧
    (present (alt_file p) = false → writable (alt_file p) = false →
      (save_doc writable present p).2 = .error .alt_write_failed) ∧
    (present (alt_file p) = false → writable (alt_file p) = true →
      (save_doc writable present p).2 = .ok (alt_file p, true)) ∧
    (save_doc writable present p).1.length ≤ 2 := by
  refine ⟨?_, ?_, ?_, ?_, ?_⟩ <;>
    simp only [save_doc, hfail, Bool.false_eq_true, if_false]
  · by_cases h : present (alt_file p) = true
    · simp [h]
    · by_cases h2 : writable (alt_file p) = true <;> simp [h, h2]
  · intro h; simp [h]
  · intro h1 h2; simp [h1, h2]
  · intro h1 h2; simp [h1, h2]
  · by_cases h1 : present (alt_file p) = true
    · simp [h1]
    · by_cases h2 : writable (alt_file p) = true <;>
        simp [h1, h2]

/-- Witness for claim C8 on a concrete file system: the configured path
d/transcript.html is locked, the alternate d/transcript_1.html does not exist
and is writable, so the rescue save lands there. -/
theorem claim8_rescue_save_witness :
    (fun q : FPath => q.stem == "transcript_1") ⟨"d", "transcript", ".html"⟩
        = false ∧
    ((save_doc (fun q => q.stem == "transcript_1") (fun _ => false)
        ⟨"d", "transcript", ".html"⟩).1 =
      (if (fun _ : FPath => false) (alt_file ⟨"d", "transcript", ".html"⟩)
        then [(⟨"d", "transcript", ".html"⟩ : FPath)]
        else [⟨"d", "transcript", ".html"⟩,
              alt_file ⟨"d", "transcript", ".html"⟩]) ∧
     ((fun _ : FPath => false) (alt_file ⟨"d", "transcript", ".html"⟩) = true →
      (save_doc (fun q => q.stem == "transcript_1") (fun _ => false)
        ⟨"d", "transcript", ".html"⟩).2 = .error .alt_exists) ∧
     ((fun _ : FPath => false) (alt_file ⟨"d", "transcript", ".html"⟩) = false →
      (fun q : FPath => q.stem == "transcript_1")
          (alt_file ⟨"d", "transcript", ".html"⟩) = false →
      (save_doc (fun q => q.stem == "transcript_1") (fun _ => false)
        ⟨"d", "transcript", ".html"⟩).2 = .error .alt_write_failed) ∧
     ((fun _ : FPath => false) (alt_file ⟨"d", "transcript", ".html"⟩) = false →
      (fun q : FPath => q.stem == "transcript_1")
          (alt_file ⟨"d", "transcript", ".html"⟩) = true →
      (save_doc (fun q => q.stem == "transcript_1") (fun _ => false)
        ⟨"d", "transcript", ".html"⟩).2 = .ok
          (alt_file ⟨"d", "transcript", ".html"⟩, true)) ∧
     (save_doc (fun q => q.stem == "transcript_1") (fun _ => false)
        ⟨"d", "transcript", ".html"⟩).1.length ≤ 2) :=
  ⟨by decide,
   claim8_rescue_save (fun q => q.stem == "transcript_1") (fun _ => false)
     ⟨"d", "transcript", ".html"⟩ (by decide)⟩

lemma append_run_ne_nil (d : DocBody) (r : TextRun) : append_run d r ≠ [] := by
  cases d <;> simp [append_run]

lemma append_run_length (d : DocBody) (h : d ≠ []) (r : TextRun) :
    (append_run d r).length = d.length := by
  cases d with
  | nil => exact absurd rfl h
  | cons p ps => rfl

lemma t_step_doc_ne (cfg : TCfg) (st : TState) (i : TIn) :
    (t_step cfg st i).doc ≠ [] :=
  append_run_ne_nil _ _

lemma t_run_cons (cfg : TCfg) (i : TIn) (rest : List TIn) (st : TState) :
    t_run cfg (i :: rest) st = t_run cfg rest (t_step cfg st i) := rfl

lemma t_step_keep (cfg : TCfg) (st : TState) (i : TIn)
    (hauto : cfg.speaker_detection = "auto")
    (h : st.speaker = find_speaker cfg.parallel cfg.diarization i.seg.start i.seg.stop ∨
      find_speaker cfg.parallel cfg.diarization i.seg.start i.seg.stop = "") :
    (t_step cfg st i).speaker = st.speaker ∧
    (t_step cfg st i).doc =
      append_run st.doc
        { href_start := cfg.start_offset + i.seg.start,
          href_stop := cfg.start_offset + i.seg.stop, text := i.seg.text } := by
  have hcond :
      ¬ (st.speaker ≠ find_speaker cfg.parallel cfg.diarization i.seg.start i.seg.stop ∧
        find_speaker cfg.parallel cfg.diarization i.seg.start i.seg.stop ≠ "") := by
    rcases h with h | h <;> simp [h]
  constructor <;> simp [t_step, hauto, hcond]

lemma t_step_new (cfg : TCfg) (st : TState) (i : TIn)
    (hauto : cfg.speaker_detection = "auto")
    (h1 : st.speaker ≠ find_speaker cfg.parallel cfg.diarization i.seg.start i.seg.stop)
    (h2 : find_speaker cfg.parallel cfg.diarization i.seg.start i.seg.stop ≠ "")
    (h3 : (find_speaker cfg.parallel cfg.diarization i.seg.start i.seg.stop).take 2 ≠ "//")
    (h4 : st.speaker.take 2 ≠ "//") :
    (t_step cfg st i).speaker =
      find_speaker cfg.parallel cfg.diarization i.seg.start i.seg.stop ∧
    (t_step cfg st i).doc.length = st.doc.length + 1 := by
  constructor <;> simp [t_step, hauto, h1, h2, h3, h4, append_run]

lemma t_step_par (cfg : TCfg) (st : TState) (i : TIn)
    (hauto : cfg.speaker_detection = "auto") (hdoc : st.doc ≠ [])
    (h1 : st.speaker ≠ find_speaker cfg.parallel cfg.diarization i.seg.start i.seg.stop)
    (h2 : find_speaker cfg.parallel cfg.diarization i.seg.start i.seg.stop ≠ "")
    (h3 : (find_speaker cfg.parallel cfg.diarization i.seg.start i.seg.stop).take 2 = "//" ∨
      ((find_speaker cfg.parallel cfg.diarization i.seg.start i.seg.stop).take 2 ≠ "//" ∧
        st.speaker.take 2 = "//")) :
    (t_step cfg st i).speaker =
      find_speaker cfg.parallel cfg.diarization i.seg.start i.seg.stop ∧
    (t_step cfg st i).doc.length = st.doc.length := by
  rcases h3 with h3 | ⟨h3, h4⟩
  · constructor <;> simp [t_step, hauto, h1, h2, h3, append_run_length st.doc hdoc]
  · constructor <;>
      simp [t_step, hauto, h1, h2, h3, h4, append_run_length st.doc hdoc]

lemma t_run_same_label (cfg : TCfg) (hauto : cfg.speaker_detection = "auto")
    (lab : String) (l : List TIn) :
    ∀ (st : TState), st.doc ≠ [] →
      (∀ j ∈ l, find_speaker cfg.parallel cfg.diarization j.seg.start j.seg.stop = lab) →
      (((st.speaker = lab ∨ lab = "") →
          (t_run cfg l st).doc.length = st.doc.length ∧
          (t_run cfg l st).speaker = st.speaker) ∧
        (t_run cfg l st).doc.length ≤ st.doc.length + 1) := by
  induction l with
  | nil =>
    intro st hdoc hlab
    exact ⟨fun _ => ⟨rfl, rfl⟩, by simp [t_run]⟩
  | cons i rest ih =>
    intro st hdoc hlab
    have hi : find_speaker cfg.parallel cfg.diarization i.seg.start i.seg.stop = lab :=
      hlab i (List.mem_cons_self i rest)
    have hrest :
        ∀ j ∈ rest, find_speaker cfg.parallel cfg.diarization j.seg.start j.seg.stop = lab :=
      fun j hj => hlab j (List.mem_cons_of_mem i hj)
    have hne : (t_step cfg st i).doc ≠ [] := t_step_doc_ne cfg st i
    have ihh := ih (t_step cfg st i) hne hrest
    by_cases hm : st.speaker = lab ∨ lab = ""
    · obtain ⟨hspk, hdoc'⟩ := t_step_keep cfg st i hauto (by rw [hi]; exact hm)
      have hlen : (t_step cfg st i).doc.length = st.doc.length := by
        rw [hdoc', append_run_length st.doc hdoc]
      constructor
      · intro _
        have hm' : (t_step cfg st i).speaker = lab ∨ lab = "" := by
          rw [hspk]; exact hm
        obtain ⟨l1, l2⟩ := ihh.1 hm'
        exact ⟨by rw [t_run_cons, l1, hlen], by rw [t_run_cons, l2, hspk]⟩
      · rw [t_run_cons]
        have h5 := ihh.2
        omega
    · push_neg at hm
      obtain ⟨hm1, hm2⟩ := hm
      have hstep : (t_step cfg st i).speaker = lab ∧
          ((t_step cfg st i).doc.length = st.doc.length ∨
            (t_step cfg st i).doc.length = st.doc.length + 1) := by
        by_cases h3 : lab.take 2 = "//"
        · obtain ⟨hs, hl⟩ := t_step_par cfg st i hauto hdoc
            (by rw [hi]; exact hm1) (by rw [hi]; exact hm2)
            (Or.inl (by rw [hi]; exact h3))
          exact ⟨by rw [hs, hi], Or.inl hl⟩
        · by_cases h4 : st.speaker.take 2 = "//"
          · obtain ⟨hs, hl⟩ := t_step_par cfg st i hauto hdoc
              (by rw [hi]; exact hm1) (by rw [hi]; exact hm2)
              (Or.inr ⟨by rw [hi]; exact h3, h4⟩)
            exact ⟨by rw [hs, hi], Or.inl hl⟩
          · obtain ⟨hs, hl⟩ := t_step_new cfg st i hauto
              (by rw [hi]; exact hm1) (by rw [hi]; exact hm2)
              (by rw [hi]; exact h3) h4
            exact ⟨by rw [hs, hi], Or.inr hl⟩
      obtain ⟨hs, hl⟩ := hstep
      constructor
      · intro hm'
        rcases hm' with hm' | hm'
        · exact absurd hm' hm1
        · exact absurd hm' hm2
      · obtain ⟨l1, _⟩ := ihh.1 (Or.inl hs)
        rw [t_run_cons]
        rcases hl with hl | hl
        · rw [l1, hl]; omega
        · rw [l1, hl]

/-- Claim C9: during document assembly with diarization enabled, a run of
consecutive segments all resolving to the same speaker label opens at most one
new paragraph; a single segment whose resolved label differs from the current
speaker and is non-empty and non-parallel, outside a parallel span, opens
exactly one new paragraph; and a parallel-span open (label prefixed "//") or
close (current speaker prefixed "//") never opens a new paragraph. -/
theorem claim9_paragraph_grouping (cfg : TCfg)
    (hauto : cfg.speaker_detection = "auto") :
    (∀ (l : List TIn) (st : TState) (lab : String), st.doc ≠ [] →
        (∀ j ∈ l,
          find_speaker cfg.parallel cfg.diarization j.seg.start j.seg.stop = lab) →
        (t_run cfg l st).doc.length ≤ st.doc.length + 1) ∧
    (∀ (i : TIn) (st : TState),
        st.speaker ≠ find_speaker cfg.parallel cfg.diarization i.seg.start i.seg.stop →
        find_speaker cfg.parallel cfg.diarization i.seg.start i.seg.stop ≠ "" →
        (find_speaker cfg.parallel cfg.diarization i.seg.start i.seg.stop).take 2 ≠ "//" →
        st.speaker.take 2 ≠ "//" →
        (t_step cfg st i).doc.length = st.doc.length + 1) ∧
    (∀ (i : TIn) (st : TState), st.doc ≠ [] →
        ((find_speaker cfg.parallel cfg.diarization i.seg.start i.seg.stop).take 2
            = "//" ∨
          st.speaker.take 2 = "//") →
        (t_step cfg st i).doc.length = st.doc.length) := by
  refine ⟨?_, ?_, ?_⟩
  · intro l st lab hdoc hlab
    exact (t_run_same_label cfg hauto lab l st hdoc hlab).2
  · intro i st h1 h2 h3 h4
    exact (t_step_new cfg st i hauto h1 h2 h3 h4).2
  · intro i st hdoc h
    by_cases hm : st.speaker =
        find_speaker cfg.parallel cfg.diarization i.seg.start i.seg.stop ∨
        find_speaker cfg.parallel cfg.diarization i.seg.start i.seg.stop = ""
    · obtain ⟨_, hdoc'⟩ := t_step_keep cfg st i hauto hm
      rw [hdoc', append_run_length st.doc hdoc]
    · push_neg at hm
      obtain ⟨hm1, hm2⟩ := hm
      rcases h with h | h
      · exact (t_step_par cfg st i hauto hdoc hm1 hm2 (Or.inl h)).2
      · by_cases h3 :
          (find_speaker cfg.parallel cfg.diarization i.seg.start i.seg.stop).take 2
            = "//"
        · exact (t_step_par cfg st i hauto hdoc hm1 hm2 (Or.inl h3)).2
        · exact (t_step_par cfg st i hauto hdoc hm1 hm2 (Or.inr ⟨h3, h⟩)).2

/-- Concrete run configuration used by the claim witnesses: diarization
enabled, parallel detection on, autosave on, no start offset, one speaker
interval. -/
def sample_cfg : TCfg :=
  { speaker_detection := "auto", parallel := true, auto_save := true,
    start_offset := 0, diarization := [⟨0, 1000, "SPEAKER_00"⟩] }

/-- Witness for claim C9 at the concrete configuration sample_cfg. -/
theorem claim9_paragraph_grouping_witness :
    sample_cfg.speaker_detection = "auto" ∧
    ((∀ (l : List TIn) (st : TState) (lab : String), st.doc ≠ [] →
        (∀ j ∈ l,
          find_speaker sample_cfg.parallel sample_cfg.diarization
            j.seg.start j.seg.stop = lab) →
        (t_run sample_cfg l st).doc.length ≤ st.doc.length + 1) ∧
     (∀ (i : TIn) (st : TState),
        st.speaker ≠ find_speaker sample_cfg.parallel sample_cfg.diarization
          i.seg.start i.seg.stop →
        find_speaker sample_cfg.parallel sample_cfg.diarization
          i.seg.start i.seg.stop ≠ "" →
        (find_speaker sample_cfg.parallel sample_cfg.diarization
          i.seg.start i.seg.stop).take 2 ≠ "//" →
        st.speaker.take 2 ≠ "//" →
        (t_step sample_cfg st i).doc.length = st.doc.length + 1) ∧
     (∀ (i : TIn) (st : TState), st.doc ≠ [] →
        ((find_speaker sample_cfg.parallel sample_cfg.diarization
            i.seg.start i.seg.stop).take 2 = "//" ∨
          st.speaker.take 2 = "//") →
        (t_step sample_cfg st i).doc.length = st.doc.length)) :=
  ⟨rfl, claim9_paragraph_grouping sample_cfg rfl⟩

lemma t_loop_skip (cfg : TCfg) (post : List TIn) (pre : List TIn) :
    ∀ (st : TState), (∀ j ∈ pre, j.cancel = false) →
      t_loop cfg (pre ++ post) st = t_loop cfg post (t_run cfg pre st) := by
  induction pre with
  | nil => intro st _; rfl
  | cons i rest ih =>
    intro st h
    have hi : i.cancel = false := h i (List.mem_cons_self i rest)
    rw [List.cons_append, t_run_cons]
    rw [show t_loop cfg (i :: (rest ++ post)) st =
        t_loop cfg (rest ++ post) (t_step cfg st i) by simp [t_loop, hi]]
    exact ih (t_step cfg st i) (fun j hj => h j (List.mem_cons_of_mem i hj))

/-- Claim C7: when the cancellation flag is first observed at some iteration
of the transcription segment loop, the loop aborts with the user-cancellation
outcome; with autosave enabled, the document accumulated from exactly the
segments processed before that observation is written once more to durable
storage before the cancelled outcome is produced; with autosave disabled, the
cancelled outcome carries no additional write. -/
theorem claim7_cancel_autosave (cfg : TCfg) (pre post : List TIn) (i : TIn)
    (hpre : ∀ j ∈ pre, j.cancel = false) (hi : i.cancel = true) :
    (cfg.auto_save = true →
      t_loop cfg (pre ++ i :: post) t_init =
        .cancelled { t_run cfg pre t_init with
          writes := (t_run cfg pre t_init).writes ++ [(t_run cfg pre t_init).doc] }) ∧
    (cfg.auto_save = false →
      t_loop cfg (pre ++ i :: post) t_init = .cancelled (t_run cfg pre t_init)) := by
  have hsplit := t_loop_skip cfg (i :: post) pre t_init hpre
  constructor
  · intro has
    rw [hsplit]
    simp [t_loop, hi, has]
  · intro has
    rw [hsplit]
    simp [t_loop, hi, has]

/-- Witness for claim C7: one ordinary segment followed by an iteration where
the cancellation flag is observed, under sample_cfg (autosave enabled). -/
theorem claim7_cancel_autosave_witness :
    (∀ j ∈ [(⟨⟨0, 500, "hello"⟩, false, false⟩ : TIn)], j.cancel = false) ∧
    (⟨⟨500, 900, "world"⟩, true, false⟩ : TIn).cancel = true ∧
    ((sample_cfg.auto_save = true →
      t_loop sample_cfg
          ([⟨⟨0, 500, "hello"⟩, false, false⟩] ++
            (⟨⟨500, 900, "world"⟩, true, false⟩ : TIn) :: []) t_init =
        .cancelled
          { t_run sample_cfg [⟨⟨0, 500, "hello"⟩, false, false⟩] t_init with
            writes :=
              (t_run sample_cfg [⟨⟨0, 500, "hello"⟩, false, false⟩] t_init).writes ++
                [(t_run sample_cfg [⟨⟨0, 500, "hello"⟩, false, false⟩] t_init).doc] }) ∧
     (sample_cfg.auto_save = false →
      t_loop sample_cfg
          ([⟨⟨0, 500, "hello"⟩, false, false⟩] ++
            (⟨⟨500, 900, "world"⟩, true, false⟩ : TIn) :: []) t_init =
        .cancelled (t_run sample_cfg [⟨⟨0, 500, "hello"⟩, false, false⟩] t_init))) :=
  ⟨by decide, rfl,
   claim7_cancel_autosave sample_cfg [⟨⟨0, 500, "hello"⟩, false, false⟩] []
     ⟨⟨500, 900, "world"⟩, true, false⟩ (by decide) rfl⟩
